import Mathlib

/-!
Shallow embedding of the autotls middleware of the frame HTTP framework
(src/middlewares/server/autotls/autotls.go) together with the server option
constructors it uses (src/server/option.go).

Go conventions used throughout the embedding:
* a Go `error` value is `Option Err` with `none` standing for the nil error;
* external effects (filesystem results, scheduling order, server behaviour)
  are passed in as explicit parameters, so every definition is executable;
* in-place mutation through pointers is modelled by returning the final
  values of the mutated arguments.
-/

namespace Autotls

/-- Go error values; `none : Option Err` is the nil error. -/
abbrev Err := String

/-- Identity of a certificate-selection callback (`tls.Config.GetCertificate`):
either the autocert manager's `GetCertificate` method, or some other
caller-installed callback. -/
inductive CertCb where
  | ofManager
  | custom (id : Nat)
deriving DecidableEq, Repr

/-- An `autocert.Cache`: the only implementation used here is the
directory-backed `autocert.DirCache`. -/
inductive Cache where
  | dirCache (dir : String)
deriving DecidableEq, Repr

/-- Shallow model of `crypto/tls.Config`, keeping the two fields this package
writes (`GetCertificate`, `NextProtos`) and representative caller-settable
fields it must leave alone (`MinVersion`, `MaxVersion`, `CipherSuites`,
`ClientAuth`). -/
structure TLSConfig where
  getCertificate : Option CertCb
  nextProtos : List String
  minVersion : Nat
  maxVersion : Nat
  cipherSuites : List Nat
  clientAuth : Nat
deriving DecidableEq, Repr

/-- The fields of `autocert.Manager` this package touches: the TOS prompt,
the host policy (`none` = no policy installed, `some domains` = the
`autocert.HostWhitelist(domains...)` policy) and the certificate cache. -/
structure Manager where
  prompt : Bool
  hostPolicy : Option (List String)
  cache : Option Cache
deriving DecidableEq, Repr

/-- Whether the manager's host policy accepts an SNI host name:
`autocert.HostWhitelist` accepts exactly the whitelisted names, and a nil
`HostPolicy` means any host is allowed. -/
def hostAllowed (m : Manager) (host : String) : Bool :=
  match m.hostPolicy with
  | none => true
  | some ds => ds.contains host

/-- `(*autocert.Manager).TLSConfig()`: a TLS configuration whose certificate
callback is the manager's `GetCertificate` and whose ALPN protocol list is
`h2`, `http/1.1` and the ACME TLS-ALPN challenge protocol; all other fields
are the zero values. -/
def Manager.tlsConfigFn (_m : Manager) : TLSConfig :=
  { getCertificate := some .ofManager
    nextProtos := ["h2", "http/1.1", "acme-tls/1"]
    minVersion := 0
    maxVersion := 0
    cipherSuites := []
    clientAuth := 0 }

/-- `NewTlsConfig(domains...)` (autotls.go:40-54), with the environment made
explicit: `dir` is the result of the `cacheDir()` helper and `mkdirOk` is
whether `os.MkdirAll(dir, 0o700)` succeeded. Builds a manager accepting the
TOS, installs `HostWhitelist(domains...)` only when `domains` is non-empty,
installs a `DirCache` only when the directory was created (a failure is only
logged), and returns the manager together with `m.TLSConfig()`. -/
def NewTlsConfig (mkdirOk : Bool) (dir : String) (domains : List String) :
    Manager × TLSConfig :=
  let m : Manager := { prompt := true, hostPolicy := none, cache := none }
  let m := if domains.length > 0 then { m with hostPolicy := some domains } else m
  let m := if mkdirOk then { m with cache := some (.dirCache dir) } else m
  (m, m.tlsConfigFn)

/-- Modelled from the spec: `getCacheDir` is repository code outside src/.
Per the spec it resolves the platform user-cache directory and creates it;
on success the manager gets a directory-backed cache, on failure the error is
only logged and the manager is left without a persistent cache. The
filesystem outcome is the explicit `outcome` argument; the function returns
the pair (cache value, error) that the Go call `m.Cache, e = getCacheDir()`
assigns from. -/
def getCacheDir (outcome : Except Err Cache) : Option Cache × Option Err :=
  match outcome with
  | .ok c => (some c, none)
  | .error e => (none, some e)

/-- Which network transport the route package is configured with: the
standard library-native transporter (`standard.NewTransporter`) or some other
transporter function. -/
inductive Transporter where
  | standard
  | custom (id : Nat)
deriving DecidableEq, Repr

/-- The fields of `config.Options` written by the option constructors of
src/server/option.go that this development uses. `transporter` stands for the
route package transporter installed by `route.SetTransporter` (written by
both `WithTransport` and `WithTLS`). -/
structure Options where
  addr : String
  network : String
  transporter : Transporter
  tls : Option TLSConfig
  readTimeout : Nat
  idleTimeout : Nat
  h2c : Bool
  alpn : Bool
deriving DecidableEq, Repr

/-- The option constructors of src/server/option.go used in this
development, as a deep embedding of `config.Option`. -/
inductive Opt where
  | withHostPorts (hp : String)
  | withNetwork (nw : String)
  | withTransport (t : Transporter)
  | withTLS (cfg : TLSConfig)
  | withReadTimeout (t : Nat)
  | withIdleTimeout (t : Nat)
  | withH2C (b : Bool)
  | withALPN (b : Bool)
deriving DecidableEq, Repr

/-- Effect of one option on the options record; each case mirrors the
closure built in src/server/option.go. Note `WithTLS` both stores the TLS
configuration and forces the standard transporter (option.go:217-222). -/
def applyOpt (o : Options) : Opt → Options
  | .withHostPorts hp => { o with addr := hp }
  | .withNetwork nw => { o with network := nw }
  | .withTransport t => { o with transporter := t }
  | .withTLS cfg => { o with transporter := .standard, tls := some cfg }
  | .withReadTimeout t => { o with readTimeout := t }
  | .withIdleTimeout t => { o with idleTimeout := t }
  | .withH2C b => { o with h2c := b }
  | .withALPN b => { o with alpn := b }

/-- Options are applied to the initial options record from left to right, as
`config.NewOptions` does, so a later option overrides an earlier one. -/
def applyOpts (o : Options) (opts : List Opt) : Options :=
  opts.foldl applyOpt o

/-- A constructed server, as far as this development observes it: the final
options record that `frame.Default(opts...)` builds it from. -/
structure Frame where
  options : Options
deriving DecidableEq, Repr

/-- `NewServerWithManagerAndTlsConfig` (autotls.go:106-129). `cacheEnv` is
the filesystem outcome consumed by the `getCacheDir` call and `o0` the
default options record `frame.Default` starts from. The Go function mutates
`m` and `tlsc` through pointers; the model returns the constructed server
together with the final values of both arguments. Steps, in source order:
fill `m.Cache` from `getCacheDir()` when it is nil (an error is only
logged); replace a nil `tlsc` by `m.TLSConfig()`; overwrite
`tlsc.GetCertificate` and `tlsc.NextProtos` from a fresh `m.TLSConfig()`;
append the forced host-port, transport and TLS options after the caller's
options and build the server. -/
def NewServerWithManagerAndTlsConfig (cacheEnv : Except Err Cache)
    (o0 : Options) (m : Manager) (tlsc : Option TLSConfig) (opts : List Opt) :
    Frame × Manager × TLSConfig :=
  let m := if m.cache = none then { m with cache := (getCacheDir cacheEnv).1 } else m
  let t := match tlsc with
    | none => m.tlsConfigFn
    | some t => t
  let d := m.tlsConfigFn
  let t := { t with getCertificate := d.getCertificate, nextProtos := d.nextProtos }
  let allOpts := opts ++ [.withHostPorts ":https", .withTransport .standard, .withTLS t]
  (⟨applyOpts o0 allOpts⟩, m, t)

/-- An incoming request as the redirect handler reads it: `host` is
`ctx.Request.URI().Host()` and `requestURI` is
`ctx.Request.URI().RequestURI()`, i.e. the path together with any query
string. -/
structure Request where
  method : String
  host : String
  requestURI : String
deriving DecidableEq, Repr

/-- The observable part of the handler's response: the status code and the
redirect target passed to `ctx.Redirect`. -/
structure Response where
  status : Nat
  location : String
deriving DecidableEq, Repr

/-- `http.StatusMovedPermanently`. -/
def statusMovedPermanently : Nat := 301

/-- The `NoRoute` handler installed on the redirect server
(autotls.go:60-64): redirect permanently to `https://` + host + request URI,
for any request it receives. -/
def noRouteHandler (req : Request) : Response :=
  { status := statusMovedPermanently
    location := "https://" ++ req.host ++ req.requestURI }

/-- Modelled from the spec: the redirect server is built by `frame.Default`
(repository code outside src/) with no routes registered, so every request —
whatever its method or path — is unmatched and dispatched to the `NoRoute`
handler. -/
def redirectServerRespond (req : Request) : Response :=
  noRouteHandler req

/-- A `context.Context` as the orchestrator reads it: `marker` is the value
stored under the package's `ctxKey` (`none` when absent) and `cancelled`
is whether the context's `Done` channel ever fires. -/
structure Ctx where
  marker : Option String
  cancelled : Bool
deriving DecidableEq, Repr

/-- `todoCtx = context.WithValue(context.Background(), ctxKey, "done")`
(autotls.go:37): it carries the marker value `"done"`, and
`context.Background()` is never cancelled. -/
def todoCtx : Ctx :=
  { marker := some "done", cancelled := false }

/-- The behaviour of the two servers during one `run`: whether each `Spin`
call ever returns on its own, the error each `Spin` encounters internally
(handled inside `Spin`, invisible to the caller), the result of each
`Shutdown` call, and which of the two concurrent `Shutdown` tasks completes
first (the scheduling of the inner errgroup). -/
structure World where
  redirectSpinReturns : Bool
  tlsSpinReturns : Bool
  redirectSpinErr : Option Err
  tlsSpinErr : Option Err
  redirectShutdownErr : Option Err
  tlsShutdownErr : Option Err
  redirectShutdownFirst : Bool
deriving DecidableEq, Repr

/-- `errgroup.Group.Wait`: blocks until all tasks have returned and yields
the first non-nil error in completion order (`results` is the list of task
results in that order). -/
def errgroupWait (results : List (Option Err)) : Option Err :=
  results.findSome? id

/-- The result each `Spin` task reports to the outer errgroup: the closure
calls `Spin` as a statement and then returns nil, whatever happened inside
`Spin` (autotls.go:66-73). -/
def spinTaskResult (_spinErr : Option Err) : Option Err :=
  none

/-- Whether the watcher task reaches the point of launching the `Shutdown`
call on the redirect server: only when the marker is absent and cancellation
fires (autotls.go:75-85). -/
def redirectShutdownIssued (ctx : Ctx) : Bool :=
  ctx.marker.isNone && ctx.cancelled

/-- Whether the watcher task reaches the point of launching the `Shutdown`
call on the TLS server: only when the marker is absent and cancellation
fires (autotls.go:75-88). -/
def tlsShutdownIssued (ctx : Ctx) : Bool :=
  ctx.marker.isNone && ctx.cancelled

/-- `gShutdown.Wait()` (autotls.go:82-90): the two `Shutdown` calls run
concurrently and the first non-nil error in completion order is returned. -/
def gShutdownWait (w : World) : Option Err :=
  if w.redirectShutdownFirst then
    errgroupWait [w.redirectShutdownErr, w.tlsShutdownErr]
  else
    errgroupWait [w.tlsShutdownErr, w.redirectShutdownErr]

/-- Outcome of the watcher task (autotls.go:75-91): `some r` when the task
returns with result `r`, `none` when it blocks forever. With the marker
present it returns nil at once; without it, it blocks on `ctx.Done()` until
cancellation, then shuts both servers down and returns the inner group's
result. -/
def watcherOutcome (ctx : Ctx) (w : World) : Option (Option Err) :=
  if ctx.marker.isSome then some none
  else if ctx.cancelled then some (gShutdownWait w)
  else none

/-- `run` (autotls.go:56-93): `g.Wait()` returns only when all three tasks
have returned, and its value is the first non-nil task result (the two
`Spin` tasks always contribute nil). `none` means `run` never returns. -/
def run (ctx : Ctx) (w : World) : Option (Option Err) :=
  match watcherOutcome ctx w with
  | none => none
  | some r =>
    if w.redirectSpinReturns && w.tlsSpinReturns then
      some (errgroupWait
        [spinTaskResult w.redirectSpinErr, spinTaskResult w.tlsSpinErr, r])
    else none

/-- `RunWithContext` (autotls.go:96-98). -/
def RunWithContext (ctx : Ctx) (w : World) : Option (Option Err) :=
  run ctx w

/-- `Run` (autotls.go:101-103): runs with `todoCtx`. -/
def Run (w : World) : Option (Option Err) :=
  run todoCtx w

/-! ## Claim C3: the TLS configuration merge -/

/-- Claim C3: for every caller-supplied partial TLS configuration,
`NewServerWithManagerAndTlsConfig` produces a TLS configuration whose
certificate callback and protocol list are exactly the manager's defaults
(those of `m.TLSConfig()`), regardless of what the caller set there, while
every other caller-set field — minimum and maximum version, cipher suites,
client-auth policy — is preserved unchanged. -/
theorem C3_tls_merge (cacheEnv : Except Err Cache) (o0 : Options) (m : Manager)
    (tlsc : TLSConfig) (opts : List Opt) :
    (NewServerWithManagerAndTlsConfig cacheEnv o0 m (some tlsc) opts).2.2 =
      { getCertificate := (Manager.tlsConfigFn m).getCertificate
        nextProtos := (Manager.tlsConfigFn m).nextProtos
        minVersion := tlsc.minVersion
        maxVersion := tlsc.maxVersion
        cipherSuites := tlsc.cipherSuites
        clientAuth := tlsc.clientAuth } ∧
    (NewServerWithManagerAndTlsConfig cacheEnv o0 m (some tlsc) opts).2.2.getCertificate =
      some CertCb.ofManager := by
  refine ⟨?_, ?_⟩ <;>
    simp [NewServerWithManagerAndTlsConfig, Manager.tlsConfigFn]

/-! ## Claim C4: the redirect handler -/

/-- Claim C4: for every request method, host `H` and path-and-query `P`, the
redirect server responds with status 301 (`http.StatusMovedPermanently`) and
the target is exactly the string `https://` + `H` + `P`; in particular a
query string inside `P` is preserved verbatim. -/
theorem C4_redirect (m h p : String) :
    redirectServerRespond ⟨m, h, p⟩ =
      ⟨statusMovedPermanently, "https://" ++ h ++ p⟩ ∧
    statusMovedPermanently = 301 ∧
    (∀ path q : String,
      (redirectServerRespond ⟨m, h, path ++ "?" ++ q⟩).location =
        "https://" ++ h ++ (path ++ "?" ++ q)) := by
  refine ⟨rfl, rfl, fun path q => rfl⟩

/-! ## Claim C6: the host policy of NewTlsConfig -/

/-- Claim C6: for every call `NewTlsConfig(domains...)`: when `domains` is
non-empty the manager's host policy is the whitelist of exactly those names
(the policy accepts a host precisely when it is listed); when `domains` is
empty no host policy is installed and every SNI name is accepted. The result
does not depend on the filesystem outcome of the cache-directory creation. -/
theorem C6_host_policy (mkdirOk : Bool) (dir : String) (domains : List String) :
    (domains ≠ [] →
      (NewTlsConfig mkdirOk dir domains).1.hostPolicy = some domains ∧
      ∀ h : String,
        hostAllowed (NewTlsConfig mkdirOk dir domains).1 h = domains.contains h) ∧
    (domains = [] →
      (NewTlsConfig mkdirOk dir domains).1.hostPolicy = none ∧
      ∀ h : String, hostAllowed (NewTlsConfig mkdirOk dir domains).1 h = true) := by
  constructor
  · intro hne
    have hlen : 0 < domains.length := List.length_pos.mpr hne
    constructor
    · cases mkdirOk <;> simp [NewTlsConfig, hlen]
    · intro h
      cases mkdirOk <;> simp [NewTlsConfig, hostAllowed, hlen]
  · intro hempty
    subst hempty
    constructor
    · cases mkdirOk <;> simp [NewTlsConfig]
    · intro h
      cases mkdirOk <;> simp [NewTlsConfig, hostAllowed]

/-- Witness for C6 at concrete inputs: with `domains = ["example.com"]` the
policy rejects the SNI name `other.com` and accepts `example.com`; with
`domains = []` the SNI name `other.com` is accepted. -/
theorem C6_host_policy_witness :
    hostAllowed (NewTlsConfig true "/cache" ["example.com"]).1 "other.com" = false ∧
    hostAllowed (NewTlsConfig true "/cache" ["example.com"]).1 "example.com" = true ∧
    hostAllowed (NewTlsConfig true "/cache" []).1 "other.com" = true := by
  have h1 := (C6_host_policy true "/cache" ["example.com"]).1 (by simp)
  have h2 := (C6_host_policy true "/cache" []).2 rfl
  refine ⟨?_, ?_, h2.2 "other.com"⟩
  · rw [h1.2 "other.com"]; decide
  · rw [h1.2 "example.com"]; decide

/-! ## Claim C7: cache-directory failure is not fatal -/

/-- Claim C7: when creation of the certificate cache directory fails,
`NewTlsConfig` still returns: the manager is left without a persistent cache
and the returned TLS configuration is exactly the one returned on success —
the manager's usable configuration, with the certificate callback resolving
through the manager. (The Go function's only return value is the TLS
configuration, so no error can reach the caller; in the model the result
type likewise has no error component.) -/
theorem C7_cache_failure_nonfatal (dir : String) (domains : List String) :
    (NewTlsConfig false dir domains).2 = (NewTlsConfig true dir domains).2 ∧
    (NewTlsConfig false dir domains).1.cache = none ∧
    (NewTlsConfig false dir domains).2.getCertificate = some CertCb.ofManager ∧
    (NewTlsConfig false dir domains).2.nextProtos = ["h2", "http/1.1", "acme-tls/1"] := by
  refine ⟨rfl, ?_, rfl, rfl⟩
  by_cases hd : domains.length > 0 <;> simp [NewTlsConfig, hd]

/-! ## Claim C8: the already-terminating marker suppresses shutdown -/

/-- Claim C8: whenever the context carries a value under the package key
(the already-terminating marker), the watcher task returns immediately with
the nil error — without waiting for cancellation — and neither server is
ever issued a `Shutdown` call during that run. -/
theorem C8_marker_suppresses_shutdown (ctx : Ctx) (w : World) (v : String)
    (hv : ctx.marker = some v) :
    watcherOutcome ctx w = some none ∧
    redirectShutdownIssued ctx = false ∧
    tlsShutdownIssued ctx = false := by
  refine ⟨?_, ?_, ?_⟩ <;>
    simp [watcherOutcome, redirectShutdownIssued, tlsShutdownIssued, hv]

/-- Witness for C8: a cancelled context carrying the marker value `"done"`
still sees the watcher return nil at once and no `Shutdown` issued. -/
theorem C8_marker_suppresses_shutdown_witness :
    watcherOutcome ⟨some "done", true⟩
        ⟨true, true, none, none, none, none, true⟩ = some none ∧
    redirectShutdownIssued ⟨some "done", true⟩ = false ∧
    tlsShutdownIssued ⟨some "done", true⟩ = false :=
  C8_marker_suppresses_shutdown ⟨some "done", true⟩
    ⟨true, true, none, none, none, none, true⟩ "done" rfl

/-! ## Claim C9: Run always uses the marked context -/

/-- Claim C9: `Run` invokes the orchestrator with `todoCtx`, which carries
the marker value `"done"`; consequently the watcher returns nil immediately,
no `Shutdown` call is ever issued to either server, and `Run` returns (with
the nil error) exactly when both `Spin` calls return on their own — it
blocks as long as either `Spin` is still running. -/
theorem C9_run_marked_context (w : World) :
    todoCtx.marker = some "done" ∧
    redirectShutdownIssued todoCtx = false ∧
    tlsShutdownIssued todoCtx = false ∧
    watcherOutcome todoCtx w = some none ∧
    Run w = (if w.redirectSpinReturns && w.tlsSpinReturns then some none else none) := by
  refine ⟨rfl, rfl, rfl, ?_, ?_⟩
  · simp [watcherOutcome, todoCtx]
  · cases hr : w.redirectSpinReturns <;> cases ht : w.tlsSpinReturns <;>
      simp [Run, run, watcherOutcome, todoCtx, errgroupWait, spinTaskResult, hr, ht]

/-! ## Claim C1: a Spin error is not propagated -/

/-- The error a failed bind would produce inside `Spin`. -/
def bindErr : Err := "listen tcp :https: bind: address already in use"

/-- A run in which both `Spin` calls return on their own, the secure
server's `Spin` having hit a bind error internally, and both `Shutdown`
calls would succeed. -/
def spinFailWorld : World :=
  { redirectSpinReturns := true
    tlsSpinReturns := true
    redirectSpinErr := none
    tlsSpinErr := some bindErr
    redirectShutdownErr := none
    tlsShutdownErr := none
    redirectShutdownFirst := true }

/-- An unmarked context that is never cancelled. -/
def quietCtx : Ctx := { marker := none, cancelled := false }

/-- Counterexample to claim C1 as stated: the secure server's `Spin` fails
with a bind error before any cancellation, yet `run` does not return that
error — it does not return at all, because each `Spin` task reports nil and
`g.Wait` still waits for the watcher, which blocks on `ctx.Done()`. -/
theorem C1_counterexample :
    run quietCtx spinFailWorld = none ∧
    (run quietCtx spinFailWorld == some (some bindErr)) = false := by
  exact ⟨rfl, rfl⟩

/-- Claim C1 amended: a `Spin` error is never surfaced by `run`: both `Spin`
tasks report nil to the errgroup whatever happened inside `Spin`, so `run`'s
result is unchanged under any change of the internal `Spin` errors; and with
an unmarked context that is never cancelled, `run` blocks indefinitely
instead of returning — also after a `Spin` failure. -/
theorem C1_spin_error_not_propagated (ctx : Ctx) (w : World) :
    (ctx.marker = none → ctx.cancelled = false → run ctx w = none) ∧
    (∀ e1 e2 : Option Err,
      run ctx { w with redirectSpinErr := e1, tlsSpinErr := e2 } = run ctx w) := by
  constructor
  · intro hm hc
    simp [run, watcherOutcome, hm, hc]
  · intro e1 e2
    simp [run, watcherOutcome, gShutdownWait, errgroupWait, spinTaskResult]

/-- Witness for the amended C1 at the counterexample input: with the bind
failure and no cancellation, `run` never returns. -/
theorem C1_spin_error_not_propagated_witness :
    run quietCtx spinFailWorld = none :=
  (C1_spin_error_not_propagated quietCtx spinFailWorld).1 rfl rfl

/-! ## Claim C2: shutdown errors are not aggregated -/

/-- The error list a single Go error value reports: errgroup's `Wait`
returns one error value, so at most one error is visible in it. -/
def reported : Option Err → List Err
  | none => []
  | some e => [e]

/-- A run in which cancellation fires and both `Shutdown` calls fail, the
redirect server's completing first. -/
def bothShutdownFailWorld : World :=
  { redirectSpinReturns := true
    tlsSpinReturns := true
    redirectSpinErr := none
    tlsSpinErr := none
    redirectShutdownErr := some "redirect shutdown failed"
    tlsShutdownErr := some "tls shutdown failed"
    redirectShutdownFirst := true }

/-- An unmarked context whose cancellation fires. -/
def cancelledCtx : Ctx := { marker := none, cancelled := true }

/-- Counterexample to claim C2 as stated: both `Shutdown` calls fail, yet
the watcher (and hence `run`) returns only the first error in completion
order; the second error is dropped, not reported in a combined failure. -/
theorem C2_counterexample :
    gShutdownWait bothShutdownFailWorld = some "redirect shutdown failed" ∧
    run cancelledCtx bothShutdownFailWorld = some (some "redirect shutdown failed") ∧
    (reported (gShutdownWait bothShutdownFailWorld) ==
      ["redirect shutdown failed", "tls shutdown failed"]) = false := by
  exact ⟨rfl, rfl, rfl⟩

/-- Claim C2 amended: when cancellation fires on an unmarked context the
watcher issues `Shutdown` to both servers concurrently and returns the first
non-nil shutdown error in completion order; when both calls fail, only the
error of the first-completed call is returned — the other is dropped, since
`errgroup.Wait` keeps a single error. -/
theorem C2_first_shutdown_error_only (ctx : Ctx) (w : World)
    (hm : ctx.marker = none) (hc : ctx.cancelled = true) :
    redirectShutdownIssued ctx = true ∧
    tlsShutdownIssued ctx = true ∧
    watcherOutcome ctx w = some (gShutdownWait w) ∧
    (∀ e1 e2 : Err,
      w.redirectShutdownErr = some e1 → w.tlsShutdownErr = some e2 →
      gShutdownWait w = some (if w.redirectShutdownFirst then e1 else e2)) := by
  refine ⟨?_, ?_, ?_, ?_⟩
  · simp [redirectShutdownIssued, hm, hc]
  · simp [tlsShutdownIssued, hm, hc]
  · simp [watcherOutcome, hm, hc]
  · intro e1 e2 h1 h2
    cases hf : w.redirectShutdownFirst <;>
      simp [gShutdownWait, errgroupWait, h1, h2, hf]

/-- Witness for the amended C2 at the counterexample input: shutdown is
issued to both servers and the watcher's result is the redirect server's
error alone. -/
theorem C2_first_shutdown_error_only_witness :
    redirectShutdownIssued cancelledCtx = true ∧
    tlsShutdownIssued cancelledCtx = true ∧
    watcherOutcome cancelledCtx bothShutdownFailWorld =
      some (some "redirect shutdown failed") := by
  have h := C2_first_shutdown_error_only cancelledCtx bothShutdownFailWorld rfl rfl
  refine ⟨h.1, h.2.1, ?_⟩
  rw [h.2.2.1]
  rw [h.2.2.2 "redirect shutdown failed" "tls shutdown failed" rfl rfl]
  rfl

/-! ## Claim C5: forced address and transport -/

/-- The default options record the server builder starts from (concrete
values only matter for the counterexample; the theorems quantify over it). -/
def defaultOptions : Options :=
  { addr := ":8888"
    network := "tcp"
    transporter := .standard
    tls := none
    readTimeout := 0
    idleTimeout := 0
    h2c := false
    alpn := false }

/-- A manager that already has a cache installed. -/
def cachedManager : Manager :=
  { prompt := true, hostPolicy := none, cache := some (.dirCache "/cache") }

/-- A caller-supplied partial TLS configuration with its own certificate
callback, protocol list, versions, cipher suites and client-auth policy. -/
def callerTls : TLSConfig :=
  { getCertificate := some (.custom 7)
    nextProtos := ["http/1.1"]
    minVersion := 771
    maxVersion := 772
    cipherSuites := [4865, 4866]
    clientAuth := 4 }

/-- Counterexample to claim C5 as stated: the caller explicitly overrides
the address to `":8443"` through `otherOptions`, yet the built server's
address is `":https"` — the forced options are appended after the caller's,
so the caller's address does not win. -/
theorem C5_counterexample :
    (NewServerWithManagerAndTlsConfig (.ok (.dirCache "/cache")) defaultOptions
        cachedManager (some callerTls) [.withHostPorts ":8443"]).1.options.addr =
      ":https" ∧
    ((":https" : String) == ":8443") = false := by
  exact ⟨rfl, rfl⟩

/-- Claim C5 amended: `NewServerWithManagerAndTlsConfig` always forces the
listening address to `":https"` — the forced option is appended after the
caller's `otherOptions` and options apply left to right, so an address the
caller supplied is itself overridden — and it always forces the standard
network transport (via the forced `WithTransport`, and again via `WithTLS`). -/
theorem C5_forced_addr_and_transport (cacheEnv : Except Err Cache) (o0 : Options)
    (m : Manager) (tlsc : Option TLSConfig) (opts : List Opt) :
    (NewServerWithManagerAndTlsConfig cacheEnv o0 m tlsc opts).1.options.addr =
      ":https" ∧
    (NewServerWithManagerAndTlsConfig cacheEnv o0 m tlsc opts).1.options.transporter =
      Transporter.standard := by
  refine ⟨?_, ?_⟩ <;>
    simp [NewServerWithManagerAndTlsConfig, applyOpts, List.foldl_append, applyOpt]

/-! ## Claim C10: the frame effect of the builder -/

/-- Claim C10: `NewServerWithManagerAndTlsConfig` mutates exactly these
parts of its arguments: the caller's TLS configuration gets its certificate
callback and protocol list overwritten with the manager's defaults (every
other field is returned unchanged), and the manager's cache is assigned from
`getCacheDir` exactly when it was nil (every other manager field, and a
non-nil cache, is returned unchanged). -/
theorem C10_frame_effect (cacheEnv : Except Err Cache) (o0 : Options)
    (m : Manager) (tlsc : TLSConfig) (opts : List Opt) :
    ((NewServerWithManagerAndTlsConfig cacheEnv o0 m (some tlsc) opts).2.2 =
      { tlsc with
        getCertificate := (Manager.tlsConfigFn m).getCertificate
        nextProtos := (Manager.tlsConfigFn m).nextProtos }) ∧
    ((NewServerWithManagerAndTlsConfig cacheEnv o0 m (some tlsc) opts).2.1 =
      { m with
        cache := if m.cache = none then (getCacheDir cacheEnv).1 else m.cache }) ∧
    (m.cache ≠ none →
      (NewServerWithManagerAndTlsConfig cacheEnv o0 m (some tlsc) opts).2.1 = m) := by
  refine ⟨?_, ?_, ?_⟩
  · by_cases hc : m.cache = none <;>
      simp [NewServerWithManagerAndTlsConfig, Manager.tlsConfigFn, hc]
  · by_cases hc : m.cache = none <;>
      simp [NewServerWithManagerAndTlsConfig, hc]
  · intro hc
    simp [NewServerWithManagerAndTlsConfig, hc]

/-- Witness for C10 at concrete inputs: a manager without a cache gets the
directory cache from a successful `getCacheDir`, a manager with a cache
keeps it, and the caller's TLS fields other than the callback and protocol
list survive. -/
theorem C10_frame_effect_witness :
    (NewServerWithManagerAndTlsConfig (.ok (.dirCache "/cache")) defaultOptions
        ⟨true, none, none⟩ (some callerTls) []).2.1 =
      ⟨true, none, some (.dirCache "/cache")⟩ ∧
    (NewServerWithManagerAndTlsConfig (.ok (.dirCache "/alt")) defaultOptions
        cachedManager (some callerTls) []).2.1 = cachedManager ∧
    (NewServerWithManagerAndTlsConfig (.ok (.dirCache "/cache")) defaultOptions
        cachedManager (some callerTls) []).2.2.minVersion = 771 := by
  have h1 := C10_frame_effect (.ok (.dirCache "/cache")) defaultOptions
    ⟨true, none, none⟩ callerTls []
  have h2 := C10_frame_effect (.ok (.dirCache "/alt")) defaultOptions
    cachedManager callerTls []
  have h3 := C10_frame_effect (.ok (.dirCache "/cache")) defaultOptions
    cachedManager callerTls []
  refine ⟨?_, h2.2.2 (by simp [cachedManager]), ?_⟩
  · rw [h1.2.1]; rfl
  · rw [h3.1]; rfl

end Autotls
